import Mathlib

/-!
Shallow embedding of `src/python_api_project.py`, a four-stage pipeline:
fetch (HTTP GET to the GitHub search API), transform (`process_data`,
raw JSON records into a table), analyze (`analyze_data`, summary
statistics and top-5 subsets), report (printing/charts, not modelled).

Modelling conventions:
* JSON values are the inductive `Json`; a parsed HTTP response is an
  `HTTPResponse` carrying its status code and already-parsed body (the
  HTTP/JSON libraries themselves are not part of this repository).
* Python exceptions that abort the run are the inductive `PipelineError`:
  the `raise Exception(...)` in `fetch_github_data` for a non-200 status
  is `remoteRequestError` (it carries the status code), and the
  `KeyError`/`ValueError`/`TypeError` raised while a record is converted
  in `process_data` are `malformedRecord` (they carry the offending
  field).  Fallible stages return `Except PipelineError _`.
* The pandas DataFrame built by `pd.DataFrame(repositories)` is a list
  of rows carrying their RangeIndex label: `DataFrame := List (Nat ×
  RepositoryRecord)`; `pd.DataFrame` itself is `pdDataFrame = List.enum`.
* `df.nlargest(5, col)` (pandas `keep = first`) returns the five rows
  with the largest value in `col`, ordered descending, ties kept and
  ordered by earliest original position; this is exactly a stable
  descending sort followed by `take 5`, embedded with the stable
  `List.mergeSort` from the standard library.
* `df['stars'].sum()` on an int64 column is a numpy int64 sum and wraps
  silently on overflow; a column holding a Python int beyond int64 is
  object dtype and sums exactly (`seriesSum`).  `mean` accumulates in
  float64 and does not wrap; it is modelled exactly over `ℚ`, with
  `Option ℚ` so that `none` stands for the NaN pandas produces on an
  empty column.
* `pd.DataFrame([])` has no columns, so on the empty table `analyze_data`
  raises `KeyError('stars')` at its first column access rather than
  returning a summary.
* `datetime.strptime(s, "%Y-%m-%dT%H:%M:%SZ").year` is `strptimeYear`,
  reproducing CPython `_strptime`: `%Y` is exactly four digits, the
  other fields are greedy one-or-two digit runs within their ranges,
  literals must match, no unconverted data may remain, and the
  `datetime` constructor then checks `1 ≤ year` and that the day fits
  the month (Gregorian leap rule).  A parse that CPython rejects with
  `ValueError` is `none`.
-/

namespace GitHubAnalysis

/-- A JSON value, as produced by `response.json()`. -/
inductive Json where
  | null : Json
  | str : String → Json
  | num : Int → Json
  | bool : Bool → Json
  | arr : List Json → Json
  | obj : List (String × Json) → Json
deriving Repr

/-- Python `d[key]` on a parsed JSON object: `some` the value when `d` is an
object with the key, `none` otherwise (Python raises `KeyError`/`TypeError`). -/
def Json.getField : Json → String → Option Json
  | .obj fields, key => fields.lookup key
  | _, _ => none

/-- An HTTP response as seen by `fetch_github_data`: status code and parsed
JSON body. -/
structure HTTPResponse where
  status : Nat
  body : Json
deriving Repr

/-- The run-aborting exceptions of the pipeline: the non-200
`raise Exception(f"API request failed with status code: ...")` in
`fetch_github_data`, carrying the status code (spec §7
`RemoteRequestError`); the `KeyError`/`ValueError` raised while
converting a record in `process_data`, carrying the offending field
(spec §7 `MalformedRecordError`); and the `KeyError` raised by a column
lookup `df[col]` on a DataFrame without that column, carrying the column
name (this is what `analyze_data` raises on the empty table — the spec's
`EmptyDatasetError` has no counterpart in the code). -/
inductive PipelineError where
  | remoteRequestError : Nat → PipelineError
  | malformedRecord : String → PipelineError
  | keyError : String → PipelineError
deriving Repr, DecidableEq

/-- Embedding of `fetch_github_data`: on status 200 return the parsed body — the whole
JSON object, exactly `return response.json()` — otherwise raise, carrying
the status code. -/
def fetch_github_data (response : HTTPResponse) : Except PipelineError Json :=
  if response.status = 200 then
    Except.ok response.body
  else
    Except.error (PipelineError.remoteRequestError response.status)

/-! ### The `datetime.strptime` model -/

/-- The longest leading run of ASCII digits, and the rest. -/
def spanDigits : List Char → List Char × List Char
  | [] => ([], [])
  | c :: cs =>
    if c.isDigit then
      let p := spanDigits cs
      (c :: p.1, p.2)
    else
      ([], c :: cs)

/-- Numeric value of a digit run. -/
def digitsVal (ds : List Char) : Nat :=
  ds.foldl (fun a c => 10 * a + (c.toNat - 48)) 0

/-- Read a one-or-two digit field whose value must lie in `[lo, hi]`
(the `%m`/`%d`/`%H`/`%M`/`%S` regexes of CPython `_strptime`, combined
with the greedy match against the following literal). -/
def readNum2 (lo hi : Nat) (cs : List Char) : Option (Nat × List Char) :=
  let p := spanDigits cs
  if p.1.length = 0 ∨ 2 < p.1.length then none
  else
    let v := digitsVal p.1
    if lo ≤ v ∧ v ≤ hi then some (v, p.2) else none

/-- Read exactly four digits (the `%Y` regex of CPython `_strptime`,
combined with the greedy match against the following literal). -/
def readYear4 (cs : List Char) : Option (Nat × List Char) :=
  let p := spanDigits cs
  if p.1.length = 4 then some (digitsVal p.1, p.2) else none

/-- Consume one expected literal character. -/
def expectChar (c : Char) : List Char → Option (List Char)
  | [] => none
  | x :: xs => if x = c then some xs else none

/-- Gregorian leap-year rule, as in `datetime`. -/
def isLeap (y : Nat) : Bool := y % 4 = 0 ∧ (y % 100 ≠ 0 ∨ y % 400 = 0)

/-- Days in a month, as validated by the `datetime` constructor. -/
def daysInMonth (y m : Nat) : Nat :=
  if m = 2 then (if isLeap y then 29 else 28)
  else if m = 4 ∨ m = 6 ∨ m = 9 ∨ m = 11 then 30
  else 31

/-- Embedding of `datetime.strptime(s, "%Y-%m-%dT%H:%M:%SZ").year`: `some year` when the
string matches the strict format and denotes a valid `datetime`, `none` when
CPython raises `ValueError`. -/
def strptimeYear (s : String) : Option Nat := do
  let cs := s.toList
  let (year, cs) ← readYear4 cs
  let cs ← expectChar '-' cs
  let (month, cs) ← readNum2 1 12 cs
  let cs ← expectChar '-' cs
  let (day, cs) ← readNum2 1 31 cs
  let cs ← expectChar 'T' cs
  let (_, cs) ← readNum2 0 23 cs
  let cs ← expectChar ':' cs
  let (_, cs) ← readNum2 0 59 cs
  let cs ← expectChar ':' cs
  let (_, cs) ← readNum2 0 59 cs
  let cs ← expectChar 'Z' cs
  match cs with
  | [] =>
    if 1 ≤ year ∧ day ≤ daysInMonth year month then some year else none
  | _ :: _ => none

/-! ### The transformer (`process_data`) -/

/-- One row of the table built by `process_data` (spec §3
`RepositoryRecord`): `created_at` holds only the `.year` the code
extracts, `description` is `none` when the API sent `null`. -/
structure RepositoryRecord where
  name : String
  stars : Int
  forks : Int
  issues : Int
  created_at : Nat
  description : Option String
  owner : String
deriving Repr, DecidableEq

/-- Lookup `repo[key]` coerced to the string the row stores: `KeyError` when the
key is absent.  (A present value of an unexpected JSON type is also
rejected here; in Python such a value would flow untyped into the
DataFrame — no claim depends on that case.) -/
def getStrE (repo : Json) (key : String) : Except PipelineError String :=
  match repo.getField key with
  | some (Json.str s) => .ok s
  | _ => .error (.malformedRecord key)

/-- Lookup `repo[key]` coerced to an integer count: `KeyError` when absent. -/
def getIntE (repo : Json) (key : String) : Except PipelineError Int :=
  match repo.getField key with
  | some (Json.num n) => .ok n
  | _ => .error (.malformedRecord key)

/-- Lookup `repo[key]` as a nullable string (`description` may be JSON `null`;
the code stores `None` untouched): `KeyError` when absent. -/
def getOptStrE (repo : Json) (key : String) : Except PipelineError (Option String) :=
  match repo.getField key with
  | some (Json.str s) => .ok (some s)
  | some Json.null => .ok none
  | _ => .error (.malformedRecord key)

/-- Embedding of `datetime.strptime(repo['created_at'], ...).year`:
`KeyError` when the field is absent, `ValueError` when the timestamp does
not match the strict format. -/
def getCreatedYearE (repo : Json) : Except PipelineError Nat :=
  match repo.getField "created_at" with
  | some (Json.str s) =>
    match strptimeYear s with
    | some y => .ok y
    | none => .error (.malformedRecord "created_at")
  | _ => .error (.malformedRecord "created_at")

/-- Lookup `repo['owner']['login']`: `KeyError` when `owner` or `owner.login` is
absent. -/
def getOwnerLoginE (repo : Json) : Except PipelineError String :=
  match (repo.getField "owner").bind (fun o => o.getField "login") with
  | some (Json.str s) => .ok s
  | _ => .error (.malformedRecord "owner.login")

/-- The body of the `for repo in data['items']` loop of `process_data`:
build one row, evaluating the seven fields in the order of the dict
literal, aborting at the first absent field or unparsable timestamp. -/
def transformRecord (repo : Json) : Except PipelineError RepositoryRecord :=
  match getStrE repo "name" with
  | .error e => .error e
  | .ok name =>
  match getIntE repo "stargazers_count" with
  | .error e => .error e
  | .ok stars =>
  match getIntE repo "forks_count" with
  | .error e => .error e
  | .ok forks =>
  match getIntE repo "open_issues_count" with
  | .error e => .error e
  | .ok issues =>
  match getCreatedYearE repo with
  | .error e => .error e
  | .ok created_at =>
  match getOptStrE repo "description" with
  | .error e => .error e
  | .ok description =>
  match getOwnerLoginE repo with
  | .error e => .error e
  | .ok owner =>
    .ok { name := name, stars := stars, forks := forks, issues := issues,
          created_at := created_at, description := description, owner := owner }

/-- A pandas DataFrame of repository rows: each row carries its RangeIndex
label, which `pd.DataFrame(list)` assigns as the position and `nlargest`
preserves. -/
abbrev DataFrame : Type := List (Nat × RepositoryRecord)

/-- Embedding of `pd.DataFrame(repositories)`: attach RangeIndex labels `0, 1, …`. -/
def pdDataFrame (l : List RepositoryRecord) : DataFrame := l.enum

/-- Lookup `data['items']`, raising when `data` is not an object with an `items`
array (`for … in` then fails before any record is built). -/
def getItems (data : Json) : Except PipelineError (List Json) :=
  match data.getField "items" with
  | some (Json.arr l) => .ok l
  | _ => .error (.malformedRecord "items")

/-- Embedding of `process_data`: convert every element of `data['items']` into a row, in
order, then build the DataFrame. -/
def process_data (data : Json) : Except PipelineError DataFrame :=
  match getItems data with
  | .error e => .error e
  | .ok items =>
    match items.mapM transformRecord with
    | .error e => .error e
    | .ok repositories => .ok (pdDataFrame repositories)

/-! ### The analyzer (`analyze_data`) -/

/-- The descending comparison `df.nlargest(·, col)` sorts by: row `a` comes
no later than row `b` when its key is at least `b`'s. -/
def keyGe (key : RepositoryRecord → Int) (a b : Nat × RepositoryRecord) : Bool :=
  decide (key b.2 ≤ key a.2)

/-- Embedding of `df.nlargest(n, col)` with pandas `keep = first`: the rows sorted
stably descending by the column, truncated to `n` — ties are ordered by
original position and the earliest ones are the ones kept. -/
def nlargestRows (key : RepositoryRecord → Int) (n : Nat) (df : DataFrame) :
    DataFrame :=
  (List.mergeSort df (keyGe key)).take n

/-- One row of the two top-5 tables, after the `[['name', stars|forks,
'owner']]` column selection: the index label survives, `value` is the
`stars` (resp. `forks`) column. -/
structure SummaryRow where
  idx : Nat
  name : String
  value : Int
  owner : String
deriving Repr, DecidableEq

/-- Project a DataFrame row onto `[['name', 'stars', 'owner']]`. -/
def starsRow (p : Nat × RepositoryRecord) : SummaryRow :=
  { idx := p.1, name := p.2.name, value := p.2.stars, owner := p.2.owner }

/-- Project a DataFrame row onto `[['name', 'forks', 'owner']]`. -/
def forksRow (p : Nat × RepositoryRecord) : SummaryRow :=
  { idx := p.1, name := p.2.name, value := p.2.forks, owner := p.2.owner }

/-- Embedding of `df[col].mean()`: the exact rational mean, `none` modelling the NaN that
pandas returns on an empty column.  Pandas computes the mean of an int64
column by accumulating in float64, so the mean does not wrap even when
`sum()` does; the float64 rounding itself is modelled as exact. -/
def colMean (l : List Int) : Option ℚ :=
  if l.length = 0 then none else some ((l.sum : ℚ) / (l.length : ℚ))

/-- Reduction of an integer into int64 two's-complement range, as numpy
int64 addition wraps.  Wrapping each partial sum is the same as wrapping
the exact sum once, since wrapping is a ring homomorphism mod `2 ^ 64`. -/
def int64Wrap (n : Int) : Int := (n + 2 ^ 63) % 2 ^ 64 - 2 ^ 63

/-- Whether `pd.DataFrame` gives the column int64 dtype: it does exactly
when every value fits in int64; a Python int beyond int64 makes the
column object dtype instead. -/
def int64Dtype (l : List Int) : Bool :=
  l.all fun n => decide (-(2 ^ 63) ≤ n ∧ n < 2 ^ 63)

/-- Embedding of `df[col].sum()` on an integer column: on an int64 column
numpy accumulates in int64 and wraps silently on overflow; on an object
column (some value beyond int64) Python-int addition is exact. -/
def seriesSum (l : List Int) : Int :=
  if int64Dtype l then int64Wrap l.sum else l.sum

/-- The summary dict built by `analyze_data` (spec §3 `SummaryReport`).
`average_stars` and `average_age` are `Option ℚ`: `none` is pandas NaN. -/
structure Summary where
  total_repositories : Nat
  total_stars : Int
  average_stars : Option ℚ
  most_starred : List SummaryRow
  most_forked : List SummaryRow
  average_age : Option ℚ
deriving Repr, DecidableEq

/-- The summary dict literal of `analyze_data`, evaluated when the column
lookups succeed.  `nowYear` is `datetime.now().year`, read from the wall
clock. -/
def summarize (nowYear : Int) (df : DataFrame) : Summary :=
  { total_repositories := df.length
    total_stars := seriesSum (df.map fun p => p.2.stars)
    average_stars := colMean (df.map fun p => p.2.stars)
    most_starred := (nlargestRows (fun r => r.stars) 5 df).map starsRow
    most_forked := (nlargestRows (fun r => r.forks) 5 df).map forksRow
    average_age :=
      (colMean (df.map fun p => (p.2.created_at : Int))).map
        fun m => (nowYear : ℚ) - m }

/-- Embedding of `analyze_data`: summary statistics over the DataFrame.
Every `DataFrame` of this embedding is one built by `pd.DataFrame(rows)`
(`pdDataFrame`), which has the seven columns exactly when `rows` is
non-empty: `pd.DataFrame([])` has no columns at all.  On such an empty
frame the first column access of the dict literal, `df['stars']` in
`df['stars'].sum()`, raises `KeyError('stars')` and the dict never
completes. -/
def analyze_data (nowYear : Int) (df : DataFrame) :
    Except PipelineError Summary :=
  if df.isEmpty then
    Except.error (PipelineError.keyError "stars")
  else
    Except.ok (summarize nowYear df)

/-- Embedding of `main` up to the summary: fetch, transform, analyze.  The printing and
charting that follow consume the summary and table without changing them. -/
def main (nowYear : Int) (response : HTTPResponse) :
    Except PipelineError Summary :=
  match fetch_github_data response with
  | .error e => .error e
  | .ok raw_data =>
    match process_data raw_data with
    | .error e => .error e
    | .ok df => analyze_data nowYear df

/-- A raw repository object of the shape the GitHub search API returns
(spec §6), with the seven fields `process_data` reads. -/
def rawRecordJson (name : String) (stars forks issues : Int)
    (createdAt : String) (description : Json) (ownerLogin : String) : Json :=
  Json.obj [("name", Json.str name),
            ("stargazers_count", Json.num stars),
            ("forks_count", Json.num forks),
            ("open_issues_count", Json.num issues),
            ("created_at", Json.str createdAt),
            ("description", description),
            ("owner", Json.obj [("login", Json.str ownerLogin)])]

/-! ### Concrete sample data used by the witnesses -/

/-- A fully valid raw record. -/
def goodRaw : Json :=
  rawRecordJson "alpha" 10 1 0 "2020-01-15T10:30:00Z" (Json.str "d") "u"

/-- A sample record. -/
def sampleA : RepositoryRecord :=
  { name := "alpha", stars := 10, forks := 1, issues := 0,
    created_at := 2020, description := none, owner := "u" }

/-- A second sample record with more stars and forks. -/
def sampleB : RepositoryRecord :=
  { name := "beta", stars := 20, forks := 2, issues := 0,
    created_at := 2021, description := some "d", owner := "v" }

/-- A concrete two-row table. -/
def sampleTable : DataFrame := pdDataFrame [sampleA, sampleB]

/-- A record whose star count is large enough that two of them overflow
an int64 sum. -/
def overflowA : RepositoryRecord :=
  { name := "a", stars := 2 ^ 62, forks := 0, issues := 0,
    created_at := 2020, description := none, owner := "u" }

/-- A second record with `2 ^ 62` stars. -/
def overflowB : RepositoryRecord :=
  { name := "b", stars := 2 ^ 62, forks := 0, issues := 0,
    created_at := 2020, description := none, owner := "v" }

/-- A two-row table whose exact star sum `2 ^ 63` exceeds int64. -/
def overflowTable : DataFrame := pdDataFrame [overflowA, overflowB]

/-- A sample record for the tie-break witness. -/
def tieA : RepositoryRecord :=
  { name := "alpha", stars := 7, forks := 3, issues := 0,
    created_at := 2020, description := none, owner := "u" }

/-- A second sample record with the same stars and forks as `tieA`. -/
def tieB : RepositoryRecord :=
  { name := "beta", stars := 7, forks := 3, issues := 1,
    created_at := 2021, description := none, owner := "v" }

/-! ## Helper lemmas -/

/-- The descending comparison is transitive. -/
theorem keyGe_trans (key : RepositoryRecord → Int) :
    ∀ a b c, keyGe key a b → keyGe key b c → keyGe key a c := by
  intro a b c hab hbc
  simp only [keyGe, decide_eq_true_eq] at *
  exact le_trans hbc hab

/-- The descending comparison is total. -/
theorem keyGe_total (key : RepositoryRecord → Int) :
    ∀ a b, keyGe key a b || keyGe key b a := by
  intro a b
  simp only [keyGe, Bool.or_eq_true, decide_eq_true_eq]
  exact le_total (key b.2) (key a.2)

/-- Rows with equal keys compare `keyGe` in both orders. -/
theorem keyGe_of_key_eq (key : RepositoryRecord → Int)
    {a b : Nat × RepositoryRecord} (h : key a.2 = key b.2) : keyGe key a b := by
  simp [keyGe, h]

/-- The selection `nlargest` returns `min n` rows of the table. -/
theorem nlargestRows_length (key : RepositoryRecord → Int) (n : Nat)
    (df : DataFrame) : (nlargestRows key n df).length = min n df.length := by
  unfold nlargestRows
  simp

/-- The rows returned by `nlargest` are sorted descending by the key. -/
theorem nlargestRows_sorted (key : RepositoryRecord → Int) (n : Nat)
    (df : DataFrame) :
    (nlargestRows key n df).Pairwise fun a b => key b.2 ≤ key a.2 := by
  have hs := List.sorted_mergeSort (keyGe_trans key) (keyGe_total key) df
  have ht := List.Pairwise.sublist
    (List.take_sublist n (List.mergeSort df (keyGe key))) hs
  exact ht.imp fun h => by simpa [keyGe] using h

/-- Every row kept by `nlargest` has key at least that of every row of the
table that was left out. -/
theorem nlargestRows_ge (key : RepositoryRecord → Int) (n : Nat)
    (df : DataFrame) :
    ∀ a ∈ nlargestRows key n df, ∀ b ∈ df, b ∉ nlargestRows key n df →
      key b.2 ≤ key a.2 := by
  intro a ha b hb hbn
  unfold nlargestRows at ha hbn
  have hmem : b ∈ List.mergeSort df (keyGe key) := List.mem_mergeSort.mpr hb
  have hsplit := List.take_append_drop n (List.mergeSort df (keyGe key))
  rw [← hsplit] at hmem
  rcases List.mem_append.mp hmem with h1 | h2
  · exact absurd h1 hbn
  · have hp := List.sorted_mergeSort (keyGe_trans key) (keyGe_total key) df
    rw [← hsplit] at hp
    have := (List.pairwise_append.mp hp).2.2 a ha b h2
    simpa [keyGe] using this

/-- In a duplicate-free list, a pair that occurs in order stays in order
after truncation, provided its later element survives the truncation. -/
theorem pair_sublist_take {α : Type} {s : List α} {a b : α} {n : Nat}
    (hnd : s.Nodup) (hsub : [a, b].Sublist s) (hbmem : b ∈ s.take n) :
    [a, b].Sublist (s.take n) := by
  obtain ⟨is, heq, hpair⟩ := List.sublist_eq_map_getElem hsub
  match is, heq, hpair with
  | [i, j], heq, hpair =>
    have hij : (i : Nat) < (j : Nat) := by
      simpa using hpair
    simp only [List.map_cons, List.map_nil, List.cons.injEq, and_true] at heq
    obtain ⟨ha, hb⟩ := heq
    simp only [Fin.getElem_fin] at ha hb
    obtain ⟨k, hk, hkeq⟩ := List.getElem_of_mem hbmem
    have hks : k < s.length := by
      have := hk
      simp only [List.length_take] at this
      omega
    have hkn : k < n := by
      have := hk
      simp only [List.length_take] at this
      omega
    rw [List.getElem_take] at hkeq
    have hjk : (j : Nat) = k := by
      have hjj : s[(j : Nat)] = s[k] := by rw [← hb, hkeq]
      exact (List.Nodup.getElem_inj_iff hnd).mp hjj
    have hjlen : (j : Nat) < (s.take n).length := by
      simp only [List.length_take]
      omega
    have hilen : (i : Nat) < (s.take n).length := by
      simp only [List.length_take]
      omega
    have hout : [a, b] =
        List.map (fun x => (s.take n)[x]) [(⟨i, hilen⟩ : Fin (s.take n).length), ⟨j, hjlen⟩] := by
      simp only [List.map_cons, List.map_nil, Fin.getElem_fin, List.getElem_take]
      rw [← ha, ← hb]
    rw [hout]
    exact List.map_getElem_sublist (by simpa using hij)

/-- The table built by `pd.DataFrame` has pairwise-distinct rows (its
RangeIndex labels are distinct). -/
theorem nodup_pdDataFrame (recs : List RepositoryRecord) :
    (pdDataFrame recs).Nodup :=
  (List.nodup_enum_map_fst recs).of_map

/-- Stability of the top-K selection at the level of rows: a pair of rows
of the table with equal keys keeps its order in the sorted list, and if the
later row is kept by `nlargest` then so is the earlier one, still in
order. -/
theorem nlargestRows_stable (key : RepositoryRecord → Int)
    (recs : List RepositoryRecord) {a b : Nat × RepositoryRecord}
    (hsub : [a, b].Sublist (pdDataFrame recs)) (heq : key a.2 = key b.2)
    (hbmem : b ∈ nlargestRows key 5 (pdDataFrame recs)) :
    [a, b].Sublist (nlargestRows key 5 (pdDataFrame recs)) := by
  have hpair : [a, b].Sublist (List.mergeSort (pdDataFrame recs) (keyGe key)) :=
    List.pair_sublist_mergeSort (keyGe_trans key) (keyGe_total key)
      (keyGe_of_key_eq key heq) hsub
  have hnd : (List.mergeSort (pdDataFrame recs) (keyGe key)).Nodup :=
    (List.mergeSort_perm (pdDataFrame recs) (keyGe key)).symm.nodup
      (nodup_pdDataFrame recs)
  exact pair_sublist_take hnd hpair hbmem

/-- Two rows of a freshly built table with the same index label are the
same row. -/
theorem pdDataFrame_fst_inj (recs : List RepositoryRecord)
    {p q : Nat × RepositoryRecord} (hp : p ∈ pdDataFrame recs)
    (hq : q ∈ pdDataFrame recs) (h : p.1 = q.1) : p = q :=
  List.inj_on_of_nodup_map (List.nodup_enum_map_fst recs) hp hq h

/-- On a non-empty table the columns exist, every lookup of the dict
literal succeeds, and `analyze_data` returns the summary. -/
theorem analyze_ok (nowYear : Int) (df : DataFrame) (h : df ≠ []) :
    analyze_data nowYear df = Except.ok (summarize nowYear df) := by
  cases df with
  | nil => exact absurd rfl h
  | cons p l => rfl

/-- Whenever the exact sum lies within int64, the pandas sum is exact:
on an int64 column the wrap is the identity there, and on an object
column the sum is exact anyway. -/
theorem seriesSum_of_fits (l : List Int) (h1 : -(2 ^ 63) ≤ l.sum)
    (h2 : l.sum < 2 ^ 63) : seriesSum l = l.sum := by
  have e63 : (2 : Int) ^ 63 = 9223372036854775808 := by norm_num
  have e64 : (2 : Int) ^ 64 = 18446744073709551616 := by norm_num
  unfold seriesSum
  split
  · unfold int64Wrap
    rw [e63] at h1 h2 ⊢
    rw [e64]
    rw [Int.emod_eq_of_lt (by omega) (by omega)]
    omega
  · rfl

/-! ## Theorems -/

/-- C3: For every HTTP response with a non-200 status code, the fetch
stage fails with a `RemoteRequestError` carrying that status code (there is
no retry — `fetch_github_data` is a single conditional on one response),
and the whole run fails the same way: `process_data` and `analyze_data`
are never reached. -/
theorem fetch_non200_raises (nowYear : Int) (response : HTTPResponse)
    (h : response.status ≠ 200) :
    fetch_github_data response =
      Except.error (PipelineError.remoteRequestError response.status) ∧
    main nowYear response =
      Except.error (PipelineError.remoteRequestError response.status) := by
  have hf : fetch_github_data response =
      Except.error (PipelineError.remoteRequestError response.status) := by
    unfold fetch_github_data
    simp [h]
  refine ⟨hf, ?_⟩
  unfold main
  rw [hf]

/-- C3 witness: A concrete 403 response aborts the run with
`RemoteRequestError 403`. -/
theorem fetch_non200_raises_witness :
    fetch_github_data ⟨403, Json.null⟩ =
      Except.error (PipelineError.remoteRequestError 403) ∧
    main 2026 ⟨403, Json.null⟩ =
      Except.error (PipelineError.remoteRequestError 403) :=
  fetch_non200_raises 2026 ⟨403, Json.null⟩ (by decide)

/-- C5 counterexample: The claim says that on HTTP 200 the fetch stage
returns the `items` array rather than the enclosing JSON object.  On the
concrete 200 response whose body is `{"items": []}`, `fetch_github_data`
returns the enclosing object itself (`return response.json()`), which is
not the `items` array `[]`. -/
theorem fetch_returns_whole_object :
    fetch_github_data ⟨200, Json.obj [("items", Json.arr [])]⟩ =
      Except.ok (Json.obj [("items", Json.arr [])]) ∧
    Except.ok (Json.obj [("items", Json.arr [])]) ≠
      (Except.ok (Json.arr []) : Except PipelineError Json) := by
  constructor
  · rfl
  · simp

/-- C5 amended: On HTTP 200 the fetch stage returns the full parsed
JSON body; the `items` array is extracted afterwards by the transform
stage (`process_data` iterates over `data['items']`). -/
theorem fetch_ok_returns_body (response : HTTPResponse)
    (h : response.status = 200) :
    fetch_github_data response = Except.ok response.body ∧
    ∀ raws : List Json,
      process_data (Json.obj [("items", Json.arr raws)]) =
        Except.map pdDataFrame (raws.mapM transformRecord) := by
  constructor
  · unfold fetch_github_data
    simp [h]
  · intro raws
    have hitems : getItems (Json.obj [("items", Json.arr raws)]) =
        Except.ok raws := rfl
    cases hm : raws.mapM transformRecord with
    | ok recs => simp only [process_data, hitems, hm]; rfl
    | error e => simp only [process_data, hitems, hm]; rfl

/-- C5 amended witness: On the concrete 200 response with body
`{"items": []}`, fetch returns the body and transform extracts `items`. -/
theorem fetch_ok_returns_body_witness :
    fetch_github_data ⟨200, Json.obj [("items", Json.arr [])]⟩ =
      Except.ok (Json.obj [("items", Json.arr [])]) ∧
    ∀ raws : List Json,
      process_data (Json.obj [("items", Json.arr raws)]) =
        Except.map pdDataFrame (raws.mapM transformRecord) :=
  fetch_ok_returns_body ⟨200, Json.obj [("items", Json.arr [])]⟩ rfl

/-- C1 counterexample: The claim says `analyze` on the empty table fails
with `EmptyDatasetError` and raises no unrelated error.  The code defines
no such error: the empty table this program produces is
`pd.DataFrame([])`, which has no columns, so `analyze_data` raises the
unrelated `KeyError('stars')` at its first column access
`df['stars'].sum()` (the model's `PipelineError` has no
empty-dataset constructor; `keyError` is the column-lookup failure). -/
theorem analyze_empty_raises_keyerror :
    analyze_data 2026 [] =
      Except.error (PipelineError.keyError "stars") := rfl

/-- C1 amended: On the empty table (zero records) `analyze_data` raises
no `EmptyDatasetError` (none exists in the code) and returns no summary:
it raises the unrelated `KeyError('stars')`, because `pd.DataFrame([])`
has no columns and the lookup `df['stars']` fails. -/
theorem analyze_empty_amended (nowYear : Int) :
    analyze_data nowYear [] =
      Except.error (PipelineError.keyError "stars") := rfl

/-- C8 counterexample: The claim says `average_stars` equals
`total_stars / total_repositories` within floating-point epsilon.  On the
two-row table with `2 ^ 62` stars each, `mean` accumulates in float64 and
does not wrap — `average_stars` is `2 ^ 62` — while `total_stars` is the
wrapped `-(2 ^ 63)`, so `total_stars / total_repositories` is
`-(2 ^ 62)`: the two differ by `2 ^ 63`, far beyond any epsilon. -/
theorem average_stars_diverges :
    (analyze_data 2026 overflowTable).map Summary.average_stars =
      Except.ok (some ((2 : ℚ) ^ 62)) ∧
    (analyze_data 2026 overflowTable).map Summary.total_stars =
      Except.ok (-(2 ^ 63)) ∧
    (-(2 ^ 63) : ℚ) / (2 : ℚ) ≠ (2 : ℚ) ^ 62 := by
  refine ⟨?_, rfl, by norm_num⟩
  have hok := analyze_ok 2026 overflowTable (by decide)
  rw [hok]
  show Except.ok (colMean (overflowTable.map fun p => p.2.stars)) = _
  have hsum : (overflowTable.map fun p => p.2.stars).sum = 2 ^ 63 := rfl
  have hlen : (overflowTable.map fun p => p.2.stars).length = 2 := rfl
  unfold colMean
  rw [hsum, hlen]
  norm_num

/-- C8 amended: For every non-empty table, `average_stars` is the exact
stars sum divided by the row count (float64 accumulation does not wrap;
its rounding is modelled as exact, hence within any epsilon), and it
equals `total_stars / total_repositories` whenever the exact sum lies
within int64 — the two diverge only in the int64-overflow regime, where
`total_stars` wraps and the mean does not. -/
theorem average_stars_float_mean (nowYear : Int) (df : DataFrame)
    (h : df ≠ []) :
    (analyze_data nowYear df).map Summary.average_stars =
      Except.ok (some ((((df.map fun p => p.2.stars).sum : Int) : ℚ) /
        (df.length : ℚ))) ∧
    (-(2 ^ 63) ≤ (df.map fun p => p.2.stars).sum →
      (df.map fun p => p.2.stars).sum < 2 ^ 63 →
      ∃ s, analyze_data nowYear df = Except.ok s ∧
        s.average_stars =
          some ((s.total_stars : ℚ) / (s.total_repositories : ℚ))) := by
  have hok := analyze_ok nowYear df h
  have hmean : colMean (df.map fun p => p.2.stars) =
      some ((((df.map fun p => p.2.stars).sum : Int) : ℚ) / (df.length : ℚ)) := by
    unfold colMean
    rw [List.length_map]
    rw [if_neg (by simpa using h)]
  constructor
  · rw [hok]
    show Except.ok (colMean (df.map fun p => p.2.stars)) = _
    rw [hmean]
  · intro h1 h2
    refine ⟨summarize nowYear df, hok, ?_⟩
    show colMean (df.map fun p => p.2.stars) =
      some ((seriesSum (df.map fun p => p.2.stars) : ℚ) / (df.length : ℚ))
    rw [hmean, seriesSum_of_fits _ h1 h2]

/-- C8 witness: The mean-equals-ratio fact applied to a concrete two-row
table. -/
theorem average_stars_float_mean_witness :
    (analyze_data 2026 sampleTable).map Summary.average_stars =
      Except.ok (some ((((sampleTable.map fun p => p.2.stars).sum : Int) : ℚ) /
        (sampleTable.length : ℚ))) ∧
    (-(2 ^ 63) ≤ (sampleTable.map fun p => p.2.stars).sum →
      (sampleTable.map fun p => p.2.stars).sum < 2 ^ 63 →
      ∃ s, analyze_data 2026 sampleTable = Except.ok s ∧
        s.average_stars =
          some ((s.total_stars : ℚ) / (s.total_repositories : ℚ))) :=
  average_stars_float_mean 2026 sampleTable (by decide)

/-- Top-K correctness of one projected top-5 table: right length, sorted
descending by the projected value, and every kept row's key at least every
left-out row's key. -/
theorem topk_block (key : RepositoryRecord → Int)
    (proj : Nat × RepositoryRecord → SummaryRow)
    (hproj : ∀ p, (proj p).value = key p.2) (df : DataFrame) :
    ((nlargestRows key 5 df).map proj).length = min 5 df.length ∧
    ((nlargestRows key 5 df).map proj).Pairwise
      (fun a b => b.value ≤ a.value) ∧
    ∀ a ∈ (nlargestRows key 5 df).map proj, ∀ p ∈ df,
      proj p ∉ (nlargestRows key 5 df).map proj → key p.2 ≤ a.value := by
  refine ⟨?_, ?_, ?_⟩
  · rw [List.length_map]
    exact nlargestRows_length key 5 df
  · rw [List.pairwise_map]
    exact (nlargestRows_sorted key 5 df).imp fun h => by
      rw [hproj, hproj]; exact h
  · intro a ha p hp hpn
    obtain ⟨q, hq, hqa⟩ := List.mem_map.mp ha
    have hpnot : p ∉ nlargestRows key 5 df := fun hmem =>
      hpn (List.mem_map_of_mem proj hmem)
    have := nlargestRows_ge key 5 df q hq p hp hpnot
    rw [← hqa, hproj]
    exact this

/-- C2: For every non-empty table, `most_starred` and `most_forked`
each have length `min 5 total_repositories`, are sorted descending by
stars (resp. forks), and every kept record's stars (resp. forks) is at
least every left-out record's. -/
theorem topk_correct (nowYear : Int) (df : DataFrame) (h : df ≠ []) :
    ∃ s, analyze_data nowYear df = Except.ok s ∧
      (s.most_starred.length = min 5 s.total_repositories ∧
        s.most_starred.Pairwise (fun a b => b.value ≤ a.value) ∧
        ∀ a ∈ s.most_starred, ∀ p ∈ df,
          starsRow p ∉ s.most_starred → p.2.stars ≤ a.value) ∧
      (s.most_forked.length = min 5 s.total_repositories ∧
        s.most_forked.Pairwise (fun a b => b.value ≤ a.value) ∧
        ∀ a ∈ s.most_forked, ∀ p ∈ df,
          forksRow p ∉ s.most_forked → p.2.forks ≤ a.value) := by
  refine ⟨summarize nowYear df, analyze_ok nowYear df h, ?_, ?_⟩
  · exact topk_block (fun r => r.stars) starsRow (fun p => rfl) df
  · exact topk_block (fun r => r.forks) forksRow (fun p => rfl) df

/-- C2 witness: The top-5 facts applied to a concrete two-row
table. -/
theorem topk_correct_witness :
    ∃ s, analyze_data 2026 sampleTable = Except.ok s ∧
      (s.most_starred.length = min 5 s.total_repositories ∧
        s.most_starred.Pairwise (fun a b => b.value ≤ a.value) ∧
        ∀ a ∈ s.most_starred, ∀ p ∈ sampleTable,
          starsRow p ∉ s.most_starred → p.2.stars ≤ a.value) ∧
      (s.most_forked.length = min 5 s.total_repositories ∧
        s.most_forked.Pairwise (fun a b => b.value ≤ a.value) ∧
        ∀ a ∈ s.most_forked, ∀ p ∈ sampleTable,
          forksRow p ∉ s.most_forked → p.2.forks ≤ a.value) :=
  topk_correct 2026 sampleTable (by decide)

/-- C9: Top-K tie-breaking is stable and deterministic: for two rows
of the input table in table order (a sublist pair of the indexed table)
with equal star counts, whenever the later row is in `most_starred` the
earlier row is too, appearing no later (the projected pair is a sublist of
`most_starred` in the same order); symmetrically for forks in
`most_forked`. -/
theorem topk_tiebreak_stable (nowYear : Int) (recs : List RepositoryRecord)
    (a b : Nat × RepositoryRecord)
    (hsub : [a, b].Sublist (pdDataFrame recs)) :
    ∃ s, analyze_data nowYear (pdDataFrame recs) = Except.ok s ∧
      (a.2.stars = b.2.stars → starsRow b ∈ s.most_starred →
        [starsRow a, starsRow b].Sublist s.most_starred) ∧
      (a.2.forks = b.2.forks → forksRow b ∈ s.most_forked →
        [forksRow a, forksRow b].Sublist s.most_forked) := by
  have hbdf : b ∈ pdDataFrame recs := (hsub.subset (by simp))
  have hne : pdDataFrame recs ≠ [] := fun hnil => by
    rw [hnil] at hbdf
    cases hbdf
  refine ⟨summarize nowYear (pdDataFrame recs),
    analyze_ok nowYear (pdDataFrame recs) hne, ?_, ?_⟩
  · intro heq hbmem
    obtain ⟨q, hq, hqb⟩ := List.mem_map.mp hbmem
    have hqdf : q ∈ pdDataFrame recs := by
      have h1 : q ∈ List.mergeSort (pdDataFrame recs)
          (keyGe fun r => r.stars) :=
        (List.take_sublist 5 _).subset hq
      exact List.mem_mergeSort.mp h1
    have hqb2 : q = b := pdDataFrame_fst_inj recs hqdf hbdf
      (congrArg SummaryRow.idx hqb)
    have hbrows : b ∈ nlargestRows (fun r => r.stars) 5 (pdDataFrame recs) :=
      hqb2 ▸ hq
    have := nlargestRows_stable (fun r => r.stars) recs hsub heq hbrows
    exact this.map starsRow
  · intro heq hbmem
    obtain ⟨q, hq, hqb⟩ := List.mem_map.mp hbmem
    have hqdf : q ∈ pdDataFrame recs := by
      have h1 : q ∈ List.mergeSort (pdDataFrame recs)
          (keyGe fun r => r.forks) :=
        (List.take_sublist 5 _).subset hq
      exact List.mem_mergeSort.mp h1
    have hqb2 : q = b := pdDataFrame_fst_inj recs hqdf hbdf
      (congrArg SummaryRow.idx hqb)
    have hbrows : b ∈ nlargestRows (fun r => r.forks) 5 (pdDataFrame recs) :=
      hqb2 ▸ hq
    have := nlargestRows_stable (fun r => r.forks) recs hsub heq hbrows
    exact this.map forksRow

/-- C9 witness: The stability statement applied to a concrete two-row
table whose rows have equal stars and equal forks. -/
theorem topk_tiebreak_stable_witness :
    ∃ s, analyze_data 2026 (pdDataFrame [tieA, tieB]) = Except.ok s ∧
      (((0 : Nat), tieA).2.stars = ((1 : Nat), tieB).2.stars →
        starsRow (1, tieB) ∈ s.most_starred →
        [starsRow (0, tieA), starsRow (1, tieB)].Sublist s.most_starred) ∧
      (((0 : Nat), tieA).2.forks = ((1 : Nat), tieB).2.forks →
        forksRow (1, tieB) ∈ s.most_forked →
        [forksRow (0, tieA), forksRow (1, tieB)].Sublist s.most_forked) :=
  topk_tiebreak_stable 2026 [tieA, tieB] (0, tieA) (1, tieB) (by decide)

/-! ### Transformer lemmas -/

/-- Monadic bind on `Except` after a success. -/
theorem except_bind_ok {α β : Type} (a : α)
    (f : α → Except PipelineError β) : (Except.ok a >>= f) = f a := rfl

/-- Monadic bind on `Except` after a failure. -/
theorem except_bind_error {α β : Type} (e : PipelineError)
    (f : α → Except PipelineError β) :
    ((Except.error e : Except PipelineError α) >>= f) = Except.error e := rfl

/-- A successful conversion of the whole `items` list yields one row per
raw record, in order. -/
theorem mapM_transform_ok {raws : List Json} {recs : List RepositoryRecord}
    (h : raws.mapM transformRecord = Except.ok recs) :
    recs.length = raws.length ∧
    ∀ i (h1 : i < raws.length) (h2 : i < recs.length),
      transformRecord (raws.get ⟨i, h1⟩) = Except.ok (recs.get ⟨i, h2⟩) := by
  induction raws generalizing recs with
  | nil =>
    rw [List.mapM_nil] at h
    cases h
    exact ⟨rfl, fun i h1 h2 => absurd h1 (Nat.not_lt_zero i)⟩
  | cons hd tl ih =>
    rw [List.mapM_cons] at h
    cases hhd : transformRecord hd with
    | error e =>
      rw [hhd, except_bind_error] at h
      exact Except.noConfusion h
    | ok b =>
      rw [hhd, except_bind_ok] at h
      cases htl : tl.mapM transformRecord with
      | error e =>
        rw [htl, except_bind_error] at h
        exact Except.noConfusion h
      | ok bs =>
        rw [htl, except_bind_ok] at h
        cases h
        obtain ⟨hlen, hpt⟩ := ih htl
        refine ⟨by simp [hlen], ?_⟩
        intro i h1 h2
        cases i with
        | zero => exact hhd
        | succ n =>
          exact hpt n (by simpa using h1) (by simpa using h2)

/-- C6: For every valid non-empty sequence of raw records, the
transform stage produces a table with exactly one row per input record in
the same order: the table is the converted records with their RangeIndex,
its records in order are exactly the converted records, the lengths agree,
and the `i`-th row is the field mapping of the `i`-th raw record. -/
theorem transform_preserves_length_order (raws : List Json)
    (recs : List RepositoryRecord) (hne : raws ≠ [])
    (hok : raws.mapM transformRecord = Except.ok recs) :
    process_data (Json.obj [("items", Json.arr raws)]) =
      Except.ok (pdDataFrame recs) ∧
    (pdDataFrame recs).map Prod.snd = recs ∧
    recs.length = raws.length ∧
    ∀ i (h1 : i < raws.length) (h2 : i < recs.length),
      transformRecord (raws.get ⟨i, h1⟩) = Except.ok (recs.get ⟨i, h2⟩) := by
  obtain ⟨hlen, hpt⟩ := mapM_transform_ok hok
  refine ⟨?_, ?_, hlen, hpt⟩
  · have hitems : getItems (Json.obj [("items", Json.arr raws)]) =
        Except.ok raws := rfl
    unfold process_data
    simp only [hitems, hok]
  · exact List.enum_map_snd recs

/-- C6 witness: One concrete valid raw record becomes one row with
the mapped fields. -/
theorem transform_preserves_length_order_witness :
    process_data (Json.obj [("items", Json.arr [goodRaw])]) =
      Except.ok (pdDataFrame
        [{ name := "alpha", stars := 10, forks := 1, issues := 0,
           created_at := 2020, description := some "d", owner := "u" }]) ∧
    (pdDataFrame
        [{ name := "alpha", stars := 10, forks := 1, issues := 0,
           created_at := 2020, description := some "d", owner := "u" }]).map
      Prod.snd =
      [{ name := "alpha", stars := 10, forks := 1, issues := 0,
         created_at := 2020, description := some "d", owner := "u" }] ∧
    ([{ name := "alpha", stars := 10, forks := 1, issues := 0,
        created_at := 2020, description := some "d",
        owner := "u" : RepositoryRecord }]).length = [goodRaw].length ∧
    ∀ i (h1 : i < [goodRaw].length)
      (h2 : i < ([{ name := "alpha", stars := 10, forks := 1, issues := 0,
                    created_at := 2020, description := some "d",
                    owner := "u" : RepositoryRecord }]).length),
      transformRecord ([goodRaw].get ⟨i, h1⟩) =
        Except.ok (([{ name := "alpha", stars := 10, forks := 1, issues := 0,
                       created_at := 2020, description := some "d",
                       owner := "u" : RepositoryRecord }]).get ⟨i, h2⟩) :=
  transform_preserves_length_order [goodRaw]
    [{ name := "alpha", stars := 10, forks := 1, issues := 0,
       created_at := 2020, description := some "d", owner := "u" }]
    (by simp) rfl

/-- C10: A raw record whose `description` is present but JSON `null`
is accepted with no failure: it becomes a normal row whose description is
the optional `none`, all other fields mapped as usual. -/
theorem null_description_accepted (name : String)
    (stars forks issues : Int) (ts : String) (ownerLogin : String) (y : Nat)
    (hts : strptimeYear ts = some y) :
    transformRecord (rawRecordJson name stars forks issues ts Json.null
        ownerLogin) =
      Except.ok { name := name, stars := stars, forks := forks,
                  issues := issues, created_at := y, description := none,
                  owner := ownerLogin } := by
  have h5 : getCreatedYearE (rawRecordJson name stars forks issues ts
      Json.null ownerLogin) = Except.ok y := by
    have hc : (rawRecordJson name stars forks issues ts Json.null
        ownerLogin).getField "created_at" = some (Json.str ts) := rfl
    unfold getCreatedYearE
    simp only [hc, hts]
  have h1 : getStrE (rawRecordJson name stars forks issues ts Json.null
      ownerLogin) "name" = Except.ok name := rfl
  have h2 : getIntE (rawRecordJson name stars forks issues ts Json.null
      ownerLogin) "stargazers_count" = Except.ok stars := rfl
  have h3 : getIntE (rawRecordJson name stars forks issues ts Json.null
      ownerLogin) "forks_count" = Except.ok forks := rfl
  have h4 : getIntE (rawRecordJson name stars forks issues ts Json.null
      ownerLogin) "open_issues_count" = Except.ok issues := rfl
  have h6 : getOptStrE (rawRecordJson name stars forks issues ts Json.null
      ownerLogin) "description" = Except.ok none := rfl
  have h7 : getOwnerLoginE (rawRecordJson name stars forks issues ts
      Json.null ownerLogin) = Except.ok ownerLogin := rfl
  unfold transformRecord
  simp only [h1, h2, h3, h4, h5, h6, h7]

/-- C10 witness: A concrete record with `"description": null`
converts successfully, with `none` stored. -/
theorem null_description_accepted_witness :
    transformRecord (rawRecordJson "alpha" 10 1 0 "2020-01-15T10:30:00Z"
        Json.null "u") =
      Except.ok { name := "alpha", stars := 10, forks := 1, issues := 0,
                  created_at := 2020, description := none, owner := "u" } :=
  null_description_accepted "alpha" 10 1 0 "2020-01-15T10:30:00Z" "u" 2020
    rfl

end GitHubAnalysis
